import Mathlib

/-!
# Verification of the Vaulto swap front end's classification, resolution and
# aggregation logic

Shallow embedding of:
* `src/app/components/swap/LiFiWidgetWrapper.tsx` — the asset classifier and
  swap-intent resolver (`handleTokenSelect`);
* `src/app/api/solana/token-data/route.ts` — the market-data aggregator
  (`POST`, `formatMarketCap`, and the disabled Jupiter providers).

Upstream data providers (CoinGecko, the token-metadata catalog, yahoo-finance)
are external collaborators: they are modelled as an opaque environment of
read-only lookups, as the code treats them.
-/

namespace VaultoSwap

/-- JavaScript `String.prototype.toLowerCase` restricted to the ASCII range,
which is all the address strings the code compares use. -/
def lowerStr (s : String) : String := ⟨s.data.map Char.toLower⟩

/-- The `Token` interface dispatched by the TokenSearch component
(`LiFiWidgetWrapper.tsx` lines 9-16). -/
structure Token where
  address : String
  symbol : String
  name : String
  decimals : Nat
  logoURI : Option String
  chainId : Nat
deriving DecidableEq, Repr

/-- `SOLANA_USDC` constant (line 20). -/
def SOLANA_USDC : String := "EPjFWdd5AufqSSqeM2qN1xzybapC8G4wEGGkZwyTDt1v"

/-- `SOLANA_CHAIN_ID_TOKENSEARCH` constant (line 21): what TokenSearch dispatches. -/
def SOLANA_CHAIN_ID_TOKENSEARCH : Nat := 101

/-- `SOLANA_CHAIN_ID_LIFI` constant (line 22): what LiFi expects. -/
def SOLANA_CHAIN_ID_LIFI : Nat := 1151111081099710

/-- `ETHEREUM_USDC` constant (line 25). -/
def ETHEREUM_USDC : String := "0xA0b86991c6218b36c1d19D4a2e9Eb0cE3606eB48"

/-- `ETHEREUM_CHAIN_ID` constant (line 26). -/
def ETHEREUM_CHAIN_ID : Nat := 1

/-- The `type` discriminator of a `tokenSelect` event: `'sell' | 'buy'`. -/
inductive SelectType
  | sell
  | buy
deriving DecidableEq, Repr

/-- A field name accepted by the widget's `setFieldValue` control surface. -/
inductive FieldName
  | fromChain
  | fromToken
  | toChain
  | toToken
deriving DecidableEq, Repr

/-- A value passed to `setFieldValue`: chain ids are numbers, tokens are
address strings. -/
inductive FieldValue
  | chain (id : Nat)
  | token (addr : String)
deriving DecidableEq, Repr

/-- One `formRef.current.setFieldValue(field, value, { setUrlSearchParam })`
call. -/
structure Command where
  field : FieldName
  value : FieldValue
  setUrlSearchParam : Bool
deriving DecidableEq, Repr

/-- `isPrivateStock` (line 95): the token came from the restricted venue's
search-index chain id. -/
def isPrivateStock (t : Token) : Bool :=
  t.chainId == SOLANA_CHAIN_ID_TOKENSEARCH

/-- `isPublicTokenizedStock` (line 97): Ethereum mainnet token other than
USDC, compared case-insensitively. -/
def isPublicTokenizedStock (t : Token) : Bool :=
  t.chainId == ETHEREUM_CHAIN_ID && lowerStr t.address != lowerStr ETHEREUM_USDC

/-- The three asset categories of the spec, derived from the two boolean
checks of `handleTokenSelect` in the order the code tests them. -/
inductive AssetCategory
  | PrivateRestrictedAsset
  | PublicTokenizedEquity
  | Ordinary
deriving DecidableEq, Repr

/-- The classifier: the branch order of `handleTokenSelect` lines 105-134. -/
def classify (t : Token) : AssetCategory :=
  if isPrivateStock t then .PrivateRestrictedAsset
  else if isPublicTokenizedStock t then .PublicTokenizedEquity
  else .Ordinary

/-- `handleTokenSelect` (lines 84-136) as the sequence of `setFieldValue`
commands it issues. `formReady` models the `formRef.current` null check at
line 89: when the control surface is unavailable the sequence is dropped. -/
def handleTokenSelect (formReady : Bool) (token : Token) (ty : SelectType) :
    List Command :=
  if !formReady then []
  else
    match ty with
    | .sell =>
      [⟨.fromChain, .chain token.chainId, true⟩,
       ⟨.fromToken, .token token.address, true⟩]
    | .buy =>
      if isPrivateStock token then
        [⟨.fromChain, .chain SOLANA_CHAIN_ID_LIFI, true⟩,
         ⟨.fromToken, .token SOLANA_USDC, true⟩,
         ⟨.toChain, .chain SOLANA_CHAIN_ID_LIFI, true⟩,
         ⟨.toToken, .token token.address, true⟩]
      else if isPublicTokenizedStock token then
        [⟨.fromChain, .chain ETHEREUM_CHAIN_ID, true⟩,
         ⟨.fromToken, .token ETHEREUM_USDC, true⟩,
         ⟨.toChain, .chain ETHEREUM_CHAIN_ID, true⟩,
         ⟨.toToken, .token token.address, true⟩]
      else
        [⟨.toChain, .chain token.chainId, true⟩,
         ⟨.toToken, .token token.address, true⟩]

/-- The live form state owned by the embedded widget. -/
structure SwapFormState where
  fromChain : Nat
  fromToken : String
  toChain : Nat
  toToken : String
deriving DecidableEq, Repr

/-- Effect of one `setFieldValue` command on the widget's form state. A
command whose value kind does not match its field is a no-op (never issued
by the resolver). -/
def applyCommand (s : SwapFormState) (c : Command) : SwapFormState :=
  match c.field, c.value with
  | .fromChain, .chain id => { s with fromChain := id }
  | .fromToken, .token a => { s with fromToken := a }
  | .toChain, .chain id => { s with toChain := id }
  | .toToken, .token a => { s with toToken := a }
  | _, _ => s

/-- Sequential application of a command sequence, in issue order. -/
def applyCommands (s : SwapFormState) (cs : List Command) : SwapFormState :=
  cs.foldl applyCommand s

/-!
## Market-data aggregator (`src/app/api/solana/token-data/route.ts`)

JavaScript numbers reaching the merge logic are modelled as either a rational
value or NaN; the only thing the code does with them is test presence,
truthiness (`x || 0`, `if (x)`) and `isNaN`.
-/

/-- A JavaScript number as the aggregator observes it: a value or NaN. -/
inductive JNum
  | val (q : ℚ)
  | nan
deriving DecidableEq, Repr

/-- JavaScript truthiness of a number: `0` and `NaN` are falsy. -/
def JNum.truthy : JNum → Bool
  | .val q => q != 0
  | .nan => false

/-- JavaScript truthiness of a possibly-undefined number. -/
def optNumTruthy : Option JNum → Bool
  | none => false
  | some v => v.truthy

/-- JavaScript `a || b` on possibly-undefined numbers. -/
def jsOrNum (a b : Option JNum) : Option JNum :=
  if optNumTruthy a then a else b

/-- The fields of a CoinGecko `fetchTokenPriceByAddress` result that the
route reads. `none` stands for a missing (undefined or null) field. -/
structure CoingeckoData where
  total_volume : Option JNum
  market_cap : Option JNum
  price_change_percentage_24h : Option JNum
deriving DecidableEq, Repr

/-- Outcome of one awaited provider call: it either throws or returns a
value (possibly null, modelled by an inner `Option`). -/
inductive ProviderResult (α : Type)
  | throws
  | ret (v : α)
deriving DecidableEq, Repr

/-- What the token-metadata catalog lookup yields for an address:
`isStock` is `isTokenizedStock(metadata.token)` and `ticker` is
`getStockTicker(metadata.token)` (null modelled as `none`). -/
structure TokenMeta where
  isStock : Bool
  ticker : Option String
deriving DecidableEq, Repr

/-- The fields of a yahoo-finance quote the route reads. -/
structure YahooQuote where
  regularMarketChangePercent : Option JNum
  changePercent : Option JNum
deriving DecidableEq, Repr

/-- The upstream providers, as an opaque environment of read-only lookups:
CoinGecko and the metadata catalog are keyed by address, yahoo-finance by
ticker symbol. -/
structure Env where
  coingecko : String → ProviderResult (Option CoingeckoData)
  tokenMeta : String → ProviderResult (Option TokenMeta)
  yahooQuote : String → ProviderResult (Option YahooQuote)

/-- `fetchJupiterMarketCap` (lines 42-45): disabled, always null. -/
def fetchJupiterMarketCap (_tokenAddress : String) : Option String := none

/-- `fetchJupiterLiquidity` (lines 51-54): disabled, always null. -/
def fetchJupiterLiquidity (_tokenAddress : String) : Option ℚ := none

/-- One entry of the response's `tokens` array. Optional fields are absent
(`none`), never null or zero, when no source supplied them. -/
structure TokenRecord where
  address : String
  tvlUSD : Option ℚ
  volumeUSD : ℚ
  marketCap : Option ℚ
  marketCapFormatted : Option String
  priceChange24h : Option ℚ
deriving DecidableEq, Repr

/-- The record built when the per-token `catch` fires (lines 173-180):
`{ address, volumeUSD: 0 }`. -/
def failureRecord (address : String) : TokenRecord :=
  { address := address, tvlUSD := none, volumeUSD := 0, marketCap := none,
    marketCapFormatted := none, priceChange24h := none }

/-- `coingeckoData?.total_volume || 0` (line 118). -/
def volumeOf (cgOpt : Option CoingeckoData) : ℚ :=
  match cgOpt.bind (fun d => d.total_volume) with
  | some (.val q) => if q == 0 then 0 else q
  | _ => 0

/-- The `tvlUSD` guard of lines 122-124: set only when the Jupiter
liquidity is non-null and positive. -/
def tvlOf (jupiterLiquidity : Option ℚ) : Option ℚ :=
  match jupiterLiquidity with
  | some l => if 0 < l then some l else none
  | none => none

/-- Lines 127-131: Jupiter's formatted market cap takes precedence
(JavaScript string truthiness); otherwise CoinGecko's numeric market cap is
used when truthy. Returns the `(marketCapFormatted, marketCap)` pair; at
most one component is populated. -/
def marketCapPair (jupiterFormatted : Option String)
    (cgOpt : Option CoingeckoData) : Option String × Option ℚ :=
  let cgCap : Option String × Option ℚ :=
    match cgOpt.bind (fun d => d.market_cap) with
    | some (.val q) => if q != 0 then (none, some q) else (none, none)
    | _ => (none, none)
  match jupiterFormatted with
  | some s => if s != "" then (some s, none) else cgCap
  | none => cgCap

/-- The 24h price change CoinGecko supplied, before any fallback (line 134). -/
def priceChangeRaw (cgOpt : Option CoingeckoData) : Option JNum :=
  cgOpt.bind (fun d => d.price_change_percentage_24h)

/-- The line-137 test
`priceChange24h === undefined || priceChange24h === null || isNaN(priceChange24h)`. -/
def pcMissingOf (cgOpt : Option CoingeckoData) : Bool :=
  match priceChangeRaw cgOpt with
  | some (.val _) => false
  | _ => true

/-- Lines 137-166: the yahoo-finance fallback for tokenized stocks. Both
`catch` blocks (metadata lookup and yahoo-finance) leave the value as
CoinGecko supplied it; a successful quote replaces it only when
`regularMarketChangePercent || changePercent` is a non-NaN number. -/
def priceChangeFinal (env : Env) (address : String)
    (cgOpt : Option CoingeckoData) : Option JNum :=
  let pc0 := priceChangeRaw cgOpt
  if pcMissingOf cgOpt && address != "" then
    match env.tokenMeta address with
    | .throws => pc0
    | .ret none => pc0
    | .ret (some meta) =>
      if meta.isStock then
        match meta.ticker with
        | some ticker =>
          if ticker != "" then
            match env.yahooQuote ticker with
            | .throws => pc0
            | .ret none => pc0
            | .ret (some quote) =>
              match jsOrNum quote.regularMarketChangePercent quote.changePercent with
              | some (.val x) => some (.val x)
              | _ => pc0
          else pc0
        | none => pc0
      else pc0
  else pc0

/-- The body of the per-address async closure (lines 104-181): fetch from
the providers, merge under the fixed priority, and build one record. A
CoinGecko throw is caught by the per-token `catch`; metadata-catalog and
yahoo-finance throws are caught by the two inner `catch` blocks and leave
`priceChange24h` as CoinGecko supplied it (line 168 then filters non-number
values out of the record). -/
def processToken (env : Env) (address : String) : TokenRecord :=
  match env.coingecko address with
  | .throws => failureRecord address
  | .ret cgOpt =>
    { address := address,
      tvlUSD := tvlOf (fetchJupiterLiquidity address),
      volumeUSD := volumeOf cgOpt,
      marketCap := (marketCapPair (fetchJupiterMarketCap address) cgOpt).2,
      marketCapFormatted := (marketCapPair (fetchJupiterMarketCap address) cgOpt).1,
      priceChange24h :=
        match priceChangeFinal env address cgOpt with
        | some (.val q) => some q
        | _ => none }

/-- An entry of the request body's `addresses` array, as JSON: either a
string or some other JSON value. -/
inductive ReqEntry
  | str (s : String)
  | nonString
deriving DecidableEq, Repr

/-- The `addresses` field of the parsed request body: an array or any
non-array JSON value. -/
inductive ReqAddresses
  | notArray
  | arr (entries : List ReqEntry)
deriving DecidableEq, Repr

/-- JavaScript `String.prototype.trim`: strip whitespace at both ends. -/
def jsTrim (s : String) : String :=
  ⟨((s.data.dropWhile Char.isWhitespace).reverse.dropWhile Char.isWhitespace).reverse⟩

/-- The per-entry validation of line 91:
`typeof addr === 'string' && addr.trim().length > 0`. -/
def validEntry : ReqEntry → Bool
  | .str s => (jsTrim s).length > 0
  | .nonString => false

/-- The combined request validation of lines 79 and 91. -/
def invalidRequest : ReqAddresses → Bool
  | .notArray => true
  | .arr entries => entries.length == 0 || !(entries.all validEntry)

/-- The string carried by an entry (validation guarantees every entry is a
string before this is used). -/
def entryString : ReqEntry → String
  | .str s => s
  | .nonString => ""

/-- The HTTP response the route returns. -/
structure AggResponse where
  chainId : Nat
  tokens : List TokenRecord
  error : Option String
  status : Nat
  cacheControl : Option String
deriving DecidableEq, Repr

/-- `POST /api/solana/token-data` (lines 73-206): validate, fan out per
address, answer 200 with one record per address in input order. -/
def POST (env : Env) (body : ReqAddresses) : AggResponse :=
  match body with
  | .notArray =>
    { chainId := 101, tokens := [],
      error := some "Invalid addresses. Must be a non-empty array of token addresses.",
      status := 400, cacheControl := none }
  | .arr entries =>
    if entries.length == 0 then
      { chainId := 101, tokens := [],
        error := some "Invalid addresses. Must be a non-empty array of token addresses.",
        status := 400, cacheControl := none }
    else if !(entries.all validEntry) then
      { chainId := 101, tokens := [],
        error := some "All addresses must be non-empty strings.",
        status := 400, cacheControl := none }
    else
      { chainId := 101,
        tokens := entries.map (fun e => processToken env (entryString e)),
        error := none, status := 200,
        cacheControl := some "no-store, no-cache, must-revalidate" }

/-- Digits of a natural number, most significant first; fuel-based so it
reduces in the kernel. -/
def natDigitsAux : Nat → Nat → List Char
  | 0, _ => []
  | fuel+1, n =>
    if n < 10 then [Nat.digitChar n]
    else natDigitsAux fuel (n / 10) ++ [Nat.digitChar (n % 10)]

/-- Decimal rendering of a natural number. -/
def natToString (n : Nat) : String := ⟨natDigitsAux (n + 1) n⟩

/-- Decimal rendering of an integer. -/
def intToString : ℤ → String
  | .ofNat n => natToString n
  | .negSucc n => "-" ++ natToString (n + 1)

/-- JavaScript `Number.prototype.toFixed(0)` on the non-negative values the
route formats: round half away from zero to an integer and render it. -/
def jsToFixed0 (q : ℚ) : String := intToString ⌊q + 1/2⌋

/-- `formatMarketCap` (lines 22-36). -/
def formatMarketCap (value : ℚ) : String :=
  if value ≥ 1000000000000 then "$" ++ jsToFixed0 (value / 1000000000000) ++ "T"
  else if value ≥ 1000000000 then "$" ++ jsToFixed0 (value / 1000000000) ++ "B"
  else if value ≥ 1000000 then "$" ++ jsToFixed0 (value / 1000000) ++ "M"
  else if value ≥ 1000 then "$" ++ jsToFixed0 (value / 1000) ++ "K"
  else "$" ++ jsToFixed0 value

/-!
## Concrete fixtures used by the witness theorems
-/

/-- A restricted-venue (Solana, search-index chain id 101) token. -/
def tokenPrivX : Token := ⟨"X", "PRIV", "Private Stock", 6, none, 101⟩

/-- The NVDAon token the widget is initialized with: an Ethereum mainnet
token other than USDC. -/
def tokenNVDA : Token :=
  ⟨"0x2d1f7226bd1f780af6b9a49dcc0ae00e8df4bdee", "NVDAon", "NVIDIA onchain", 18, none, 1⟩

/-- An arbitrary prior form state, with both legs away from Ethereum USDC. -/
def swapState0 : SwapFormState := ⟨137, "0xdead", 42, "0xbeef"⟩

/-!
## Resolver and classifier theorems
-/

/-- C5: `classify` is a total function assigning every token exactly one of
the three categories: `PrivateRestrictedAsset` iff the chain identifier is
the restricted-venue search identifier 101; `PublicTokenizedEquity` iff the
chain identifier is 1 and the address differs case-insensitively from
Ethereum USDC; `Ordinary` otherwise. -/
theorem classify_total_three_way (t : Token) :
    (classify t = .PrivateRestrictedAsset ↔
      t.chainId = SOLANA_CHAIN_ID_TOKENSEARCH) ∧
    (classify t = .PublicTokenizedEquity ↔
      t.chainId = ETHEREUM_CHAIN_ID ∧ lowerStr t.address ≠ lowerStr ETHEREUM_USDC) ∧
    (classify t = .Ordinary ↔
      t.chainId ≠ SOLANA_CHAIN_ID_TOKENSEARCH ∧
      ¬(t.chainId = ETHEREUM_CHAIN_ID ∧ lowerStr t.address ≠ lowerStr ETHEREUM_USDC)) := by
  have h101 : SOLANA_CHAIN_ID_TOKENSEARCH ≠ ETHEREUM_CHAIN_ID := by decide
  by_cases h1 : t.chainId = SOLANA_CHAIN_ID_TOKENSEARCH <;>
    by_cases h2 : t.chainId = ETHEREUM_CHAIN_ID <;>
      by_cases h3 : lowerStr t.address = lowerStr ETHEREUM_USDC <;>
        simp_all [classify, isPrivateStock, isPublicTokenizedStock]

/-- C1: selecting a restricted-venue token as destination issues exactly the
four commands that pin both legs to the LiFi Solana execution chain id with
Solana USDC as the source token, in the order: source chain, source token,
destination chain, destination token. -/
theorem private_destination_selection_commands (t : Token)
    (h : classify t = .PrivateRestrictedAsset) :
    handleTokenSelect true t .buy =
      [⟨.fromChain, .chain SOLANA_CHAIN_ID_LIFI, true⟩,
       ⟨.fromToken, .token SOLANA_USDC, true⟩,
       ⟨.toChain, .chain SOLANA_CHAIN_ID_LIFI, true⟩,
       ⟨.toToken, .token t.address, true⟩] := by
  by_cases hp : isPrivateStock t
  · simp [handleTokenSelect, hp]
  · unfold classify at h
    rw [if_neg (by simp [hp])] at h
    split at h <;> simp_all

/-- Witness for C1, at the concrete restricted-venue token `tokenPrivX`. -/
theorem private_destination_selection_commands_witness :
    classify tokenPrivX = .PrivateRestrictedAsset ∧
    handleTokenSelect true tokenPrivX .buy =
      [⟨.fromChain, .chain SOLANA_CHAIN_ID_LIFI, true⟩,
       ⟨.fromToken, .token SOLANA_USDC, true⟩,
       ⟨.toChain, .chain SOLANA_CHAIN_ID_LIFI, true⟩,
       ⟨.toToken, .token tokenPrivX.address, true⟩] :=
  ⟨by decide, private_destination_selection_commands tokenPrivX (by decide)⟩

/-- C2 counterexample: the claim says no command ever carries the
search-index identifier 101 as a chain value, but selecting a
restricted-venue token as *source* passes `token.chainId` through
unchanged, so the issued `fromChain` command carries 101. -/
theorem source_selection_carries_search_id :
    Command.mk .fromChain (.chain SOLANA_CHAIN_ID_TOKENSEARCH) true
      ∈ handleTokenSelect true tokenPrivX .sell := by decide

/-- C2 (amended to Destination-selection events): in every command issued
for a `buy` selection, a chain value is never the search-index identifier
101, and when the token classifies as a restricted-venue asset every chain
value is the LiFi execution identifier; the classifier itself compares the
token's chain id against the search-index identifier, never the LiFi one. -/
theorem lifi_id_in_destination_commands (t : Token) (ready : Bool) :
    ((handleTokenSelect ready t .buy).all
      (fun c => match c.value with
        | .chain id => id != SOLANA_CHAIN_ID_TOKENSEARCH
        | .token _ => true)) = true ∧
    (classify t = .PrivateRestrictedAsset →
      ((handleTokenSelect ready t .buy).all
        (fun c => match c.value with
          | .chain id => id == SOLANA_CHAIN_ID_LIFI
          | .token _ => true)) = true) ∧
    (classify t = .PrivateRestrictedAsset ↔
      t.chainId = SOLANA_CHAIN_ID_TOKENSEARCH) := by
  have hcl := (classify_total_three_way t).1
  cases ready with
  | false => simpa [handleTokenSelect] using hcl
  | true =>
    by_cases hp : isPrivateStock t
    · exact ⟨by simp [handleTokenSelect, hp]; decide,
        fun _ => by simp [handleTokenSelect, hp], hcl⟩
    · have hnotpriv : ¬ classify t = .PrivateRestrictedAsset := by
        rw [hcl]
        intro hx
        exact hp (by simp [isPrivateStock, hx])
      have hne : (t.chainId == SOLANA_CHAIN_ID_TOKENSEARCH) = false := by
        simpa [isPrivateStock] using hp
      refine ⟨?_, fun hx => absurd hx hnotpriv, hcl⟩
      by_cases hq : isPublicTokenizedStock t
      · simp [handleTokenSelect, hp, hq]
        decide
      · simp [handleTokenSelect, hp, hq, hne]
        simpa [isPrivateStock] using hp

/-- Witness for the amended C2, at the concrete restricted-venue token,
discharging the classification hypothesis of the second conjunct. -/
theorem lifi_id_in_destination_commands_witness :
    classify tokenPrivX = .PrivateRestrictedAsset ∧
    ((handleTokenSelect true tokenPrivX .buy).all
      (fun c => match c.value with
        | .chain id => id == SOLANA_CHAIN_ID_LIFI
        | .token _ => true)) = true :=
  ⟨by decide, (lifi_id_in_destination_commands tokenPrivX true).2.1 (by decide)⟩

/-- C3: selecting a public tokenized equity as destination always leaves the
form with source chain 1 and source token Ethereum USDC, regardless of the
prior form state. -/
theorem public_equity_destination_forces_usdc_source (t : Token)
    (s : SwapFormState) (h : classify t = .PublicTokenizedEquity) :
    (applyCommands s (handleTokenSelect true t .buy)).fromChain = ETHEREUM_CHAIN_ID ∧
    (applyCommands s (handleTokenSelect true t .buy)).fromToken = ETHEREUM_USDC := by
  by_cases hp : isPrivateStock t
  · unfold classify at h
    rw [if_pos hp] at h
    simp at h
  · by_cases hq : isPublicTokenizedStock t
    · simp [handleTokenSelect, hp, hq, applyCommands, applyCommand]
    · unfold classify at h
      rw [if_neg (by simp [hp]), if_neg (by simp [hq])] at h
      simp at h

/-- Witness for C3, at the concrete NVDAon token and a prior state with both
legs away from Ethereum. -/
theorem public_equity_destination_forces_usdc_source_witness :
    classify tokenNVDA = .PublicTokenizedEquity ∧
    ((applyCommands swapState0 (handleTokenSelect true tokenNVDA .buy)).fromChain = ETHEREUM_CHAIN_ID ∧
     (applyCommands swapState0 (handleTokenSelect true tokenNVDA .buy)).fromToken = ETHEREUM_USDC) :=
  ⟨by decide,
   public_equity_destination_forces_usdc_source tokenNVDA swapState0 (by decide)⟩

/-- C6: a source (`sell`) selection issues commands only for the source
chain and source token fields, and applying them never modifies the
destination chain or destination token of the form state. -/
theorem source_selection_leaves_destination (ready : Bool) (t : Token)
    (s : SwapFormState) :
    ((handleTokenSelect ready t .sell).all
      (fun c => c.field == .fromChain || c.field == .fromToken)) = true ∧
    (applyCommands s (handleTokenSelect ready t .sell)).toChain = s.toChain ∧
    (applyCommands s (handleTokenSelect ready t .sell)).toToken = s.toToken := by
  cases ready <;> simp [handleTokenSelect, applyCommands, applyCommand]

/-!
## Aggregator fixtures and helper lemmas
-/

/-- An environment in which every provider call throws. -/
def envAllThrow : Env := ⟨fun _ => .throws, fun _ => .throws, fun _ => .throws⟩

/-- An environment in which every provider call returns null. -/
def envAllNull : Env := ⟨fun _ => .ret none, fun _ => .ret none, fun _ => .ret none⟩

/-- The invalid batch body of the spec scenario: a blank second address. -/
def invalidBody : ReqAddresses := .arr [.str "0xAAA", .str ""]

/-- A CoinGecko result with all three fields present and truthy. -/
def cgGood : CoingeckoData := ⟨some (.val 5), some (.val 7), some (.val 2)⟩

/-- A CoinGecko result with no 24h price change. -/
def cgMissing : CoingeckoData := ⟨some (.val 5), some (.val 7), none⟩

/-- A CoinGecko result whose market cap is the number 0. -/
def cgZeroCap : CoingeckoData := ⟨some (.val 5), some (.val 0), some (.val 2)⟩

/-- `cgZeroCap` with the market cap absent instead of 0. -/
def cgNoCap : CoingeckoData := ⟨some (.val 5), none, some (.val 2)⟩

/-- CoinGecko throws for address "A" and answers `cgGood` elsewhere. -/
def envFailA : Env :=
  ⟨fun x => if x == "A" then .throws else .ret (some cgGood),
   fun _ => .ret none, fun _ => .throws⟩

/-- CoinGecko answers `cgGood` everywhere. -/
def envOkA : Env :=
  ⟨fun _ => .ret (some cgGood), fun _ => .ret none, fun _ => .throws⟩

/-- CoinGecko always returns a zero market cap. -/
def envZeroCap : Env :=
  ⟨fun _ => .ret (some cgZeroCap), fun _ => .ret none, fun _ => .throws⟩

/-- CoinGecko always returns no market cap. -/
def envNoCap : Env :=
  ⟨fun _ => .ret (some cgNoCap), fun _ => .ret none, fun _ => .throws⟩

/-- CoinGecko always answers fully (price change present). -/
def envPrimary : Env :=
  ⟨fun _ => .ret (some cgGood), fun _ => .ret none, fun _ => .throws⟩

/-- CoinGecko lacks the price change, the metadata catalog resolves a
tokenized stock with ticker "NVDA", and yahoo-finance throws. -/
def envFallbackThrow : Env :=
  ⟨fun _ => .ret (some cgMissing),
   fun _ => .ret (some ⟨true, some "NVDA"⟩),
   fun _ => .throws⟩

/-- Every record carries back the address it was built for. -/
theorem processToken_address (env : Env) (s : String) :
    (processToken env s).address = s := by
  unfold processToken
  cases env.coingecko s <;> rfl

/-- `processToken` reads the environment only at the given address (and at
the ticker the metadata catalog resolves): environments that agree there
build identical records. -/
theorem processToken_congr (env env2 : Env) (x : String)
    (h1 : env2.coingecko x = env.coingecko x)
    (h2 : env2.tokenMeta x = env.tokenMeta x)
    (h3 : env2.yahooQuote = env.yahooQuote) :
    processToken env x = processToken env2 x := by
  unfold processToken priceChangeFinal
  rw [h1, h2, h3]

/-- The line-140/142 eligibility test for the yahoo-finance fallback, as a
predicate on the metadata lookup's outcome: a resolvable tokenized stock. -/
def tickerEligible : ProviderResult (Option TokenMeta) → Bool
  | .ret (some m) => m.isStock && (match m.ticker with | some t => t != "" | none => false)
  | _ => false

/-!
## Aggregator theorems
-/

/-- C7: a batch whose `addresses` is not a non-empty array, or has a
non-string or blank entry, is answered with status 400, an error message and
an empty `tokens` list, and the response does not depend on the providers
(none is contacted). -/
theorem invalid_batch_rejected (env env2 : Env) (body : ReqAddresses)
    (h : invalidRequest body = true) :
    (POST env body).status = 400 ∧ (POST env body).tokens = [] ∧
    (POST env body).error.isSome = true ∧ POST env body = POST env2 body := by
  cases body with
  | notArray => exact ⟨rfl, rfl, rfl, rfl⟩
  | arr entries =>
    unfold invalidRequest at h
    rw [Bool.or_eq_true] at h
    rcases h with h0 | h1
    · simp [POST, h0]
    · by_cases h0 : (entries.length == 0) = true
      · simp [POST, h0]
      · simp [POST, h0, h1]

/-- Witness for C7: the spec scenario `addresses = ["0xAAA", ""]`. -/
theorem invalid_batch_rejected_witness :
    invalidRequest invalidBody = true ∧
    ((POST envAllThrow invalidBody).status = 400 ∧
     (POST envAllThrow invalidBody).tokens = [] ∧
     (POST envAllThrow invalidBody).error.isSome = true ∧
     POST envAllThrow invalidBody = POST envAllNull invalidBody) :=
  ⟨by decide, invalid_batch_rejected envAllThrow envAllNull invalidBody (by decide)⟩

/-- C8: `formatMarketCap` divides by the largest applicable threshold,
rounds to zero decimal places, and attaches the `$` prefix and the
T/B/M/K suffix; in particular it maps 472000000000 to "$472B", 999 to
"$999" and 1000000000000 to "$1T". -/
theorem formatMarketCap_thresholds (q : ℚ) (_h0 : 0 ≤ q) :
    (1000000000000 ≤ q →
      formatMarketCap q = "$" ++ jsToFixed0 (q / 1000000000000) ++ "T") ∧
    (1000000000 ≤ q → q < 1000000000000 →
      formatMarketCap q = "$" ++ jsToFixed0 (q / 1000000000) ++ "B") ∧
    (1000000 ≤ q → q < 1000000000 →
      formatMarketCap q = "$" ++ jsToFixed0 (q / 1000000) ++ "M") ∧
    (1000 ≤ q → q < 1000000 →
      formatMarketCap q = "$" ++ jsToFixed0 (q / 1000) ++ "K") ∧
    (q < 1000 → formatMarketCap q = "$" ++ jsToFixed0 q) ∧
    formatMarketCap 472000000000 = "$472B" ∧
    formatMarketCap 999 = "$999" ∧
    formatMarketCap 1000000000000 = "$1T" := by
  refine ⟨fun h1 => ?_, fun h1 h2 => ?_, fun h1 h2 => ?_, fun h1 h2 => ?_,
    fun h1 => ?_, ?_, ?_, ?_⟩
  · unfold formatMarketCap
    rw [if_pos h1]
  · unfold formatMarketCap
    rw [if_neg (not_le.mpr h2), if_pos h1]
  · unfold formatMarketCap
    rw [if_neg (not_le.mpr (h2.trans (by norm_num))), if_neg (not_le.mpr h2),
      if_pos h1]
  · unfold formatMarketCap
    rw [if_neg (not_le.mpr (h2.trans (by norm_num))),
      if_neg (not_le.mpr (h2.trans (by norm_num))), if_neg (not_le.mpr h2),
      if_pos h1]
  · unfold formatMarketCap
    rw [if_neg (not_le.mpr (h1.trans (by norm_num))),
      if_neg (not_le.mpr (h1.trans (by norm_num))),
      if_neg (not_le.mpr (h1.trans (by norm_num))), if_neg (not_le.mpr h1)]
  · unfold formatMarketCap
    rw [if_neg (by norm_num), if_pos (by norm_num)]
    have hdiv : (472000000000 : ℚ) / 1000000000 = 472 := by norm_num
    rw [hdiv]
    unfold jsToFixed0
    have hfl : ⌊(472 : ℚ) + 1/2⌋ = (472 : ℤ) := by norm_num
    rw [hfl]
    decide
  · unfold formatMarketCap
    rw [if_neg (by norm_num), if_neg (by norm_num), if_neg (by norm_num),
      if_neg (by norm_num)]
    unfold jsToFixed0
    have hfl : ⌊(999 : ℚ) + 1/2⌋ = (999 : ℤ) := by norm_num
    rw [hfl]
    decide
  · unfold formatMarketCap
    rw [if_pos (by norm_num)]
    have hdiv : (1000000000000 : ℚ) / 1000000000000 = 1 := by norm_num
    rw [hdiv]
    unfold jsToFixed0
    have hfl : ⌊(1 : ℚ) + 1/2⌋ = (1 : ℤ) := by norm_num
    rw [hfl]
    decide

/-- Witness for C8, at the spec's own test vector 472000000000. -/
theorem formatMarketCap_thresholds_witness :
    (0 : ℚ) ≤ 472000000000 ∧ formatMarketCap 472000000000 = "$472B" :=
  ⟨by norm_num, (formatMarketCap_thresholds 472000000000 (by norm_num)).2.2.2.2.2.1⟩

/-- C10: with the venue-specific formatted market cap absent (the Jupiter
source is disabled) and CoinGecko reporting a market cap equal to 0, the
record carries no market-cap field at all, and is identical to the record
built when CoinGecko reports no market cap. -/
theorem zero_market_cap_dropped (env env2 : Env) (a : String)
    (d d2 : CoingeckoData)
    (h : env.coingecko a = .ret (some d))
    (hmc : d.market_cap = some (.val 0))
    (h2 : env2.coingecko a = .ret (some d2))
    (hd2 : d2 = { d with market_cap := none })
    (hmeta : env2.tokenMeta = env.tokenMeta)
    (hyq : env2.yahooQuote = env.yahooQuote) :
    (processToken env a).marketCap = none ∧
    (processToken env a).marketCapFormatted = none ∧
    processToken env a = processToken env2 a := by
  subst hd2
  unfold processToken
  rw [h, h2]
  have hmcp : marketCapPair (fetchJupiterMarketCap a)
      (some ({ d with market_cap := none } : CoingeckoData)) =
      marketCapPair (fetchJupiterMarketCap a) (some d) := by
    simp [marketCapPair, fetchJupiterMarketCap, hmc]
  have hpc : priceChangeFinal env2 a
      (some ({ d with market_cap := none } : CoingeckoData)) =
      priceChangeFinal env a (some d) := by
    unfold priceChangeFinal
    rw [hmeta, hyq]
    exact rfl
  refine ⟨?_, ?_, ?_⟩
  · simp [marketCapPair, fetchJupiterMarketCap, hmc]
  · simp [marketCapPair, fetchJupiterMarketCap, hmc]
  · simp only [hmcp, hpc]
    exact rfl

/-- Witness for C10: a zero market cap from CoinGecko and a missing one
yield the same record, with no market-cap field. -/
theorem zero_market_cap_dropped_witness :
    (processToken envZeroCap "A").marketCap = none ∧
    (processToken envZeroCap "A").marketCapFormatted = none ∧
    processToken envZeroCap "A" = processToken envNoCap "A" :=
  zero_market_cap_dropped envZeroCap envNoCap "A" cgZeroCap cgNoCap
    rfl rfl rfl rfl rfl rfl

/-- C4: a valid batch is answered with status 200 and exactly one record
per input address, in input order; a total provider failure for one address
yields the default record (volume 0, every optional field absent) for that
address and leaves every other address's record exactly what it is in a
batch without the failure. -/
theorem aggregator_batch_shape_and_isolation
    (env env2 : Env) (entries : List ReqEntry) (a : String)
    (hv : invalidRequest (.arr entries) = false)
    (hfail : env.coingecko a = .throws)
    (hcg : ∀ x, x ≠ a → env2.coingecko x = env.coingecko x)
    (hmeta : ∀ x, x ≠ a → env2.tokenMeta x = env.tokenMeta x)
    (hyq : env2.yahooQuote = env.yahooQuote) :
    (POST env (.arr entries)).status = 200 ∧
    (POST env (.arr entries)).error = none ∧
    (POST env (.arr entries)).tokens =
      entries.map (fun e => processToken env (entryString e)) ∧
    (POST env (.arr entries)).tokens.map (fun r => r.address) =
      entries.map entryString ∧
    processToken env a = failureRecord a ∧
    (∀ x, x ≠ a → processToken env x = processToken env2 x) := by
  have hlen : (entries.length == 0) = false := by
    unfold invalidRequest at hv
    cases h : (entries.length == 0) <;> simp_all
  have hall : entries.all validEntry = true := by
    unfold invalidRequest at hv
    cases h : entries.all validEntry <;> simp_all
  refine ⟨?_, ?_, ?_, ?_, ?_, ?_⟩
  · simp [POST, hlen, hall]
  · simp [POST, hlen, hall]
  · simp [POST, hlen, hall]
  · simp [POST, hlen, hall, List.map_map, Function.comp_def, processToken_address]
  · unfold processToken
    rw [hfail]
  · intro x hx
    exact processToken_congr env env2 x (hcg x hx) (hmeta x hx) hyq

/-- Witness for C4: a two-address batch in which every provider for "A"
throws while "B" is served normally. -/
theorem aggregator_batch_shape_and_isolation_witness :
    invalidRequest (.arr [.str "A", .str "B"]) = false ∧
    envFailA.coingecko "A" = .throws ∧
    ((POST envFailA (.arr [.str "A", .str "B"])).status = 200 ∧
     (POST envFailA (.arr [.str "A", .str "B"])).error = none ∧
     (POST envFailA (.arr [.str "A", .str "B"])).tokens =
       [.str "A", .str "B"].map
         (fun e => processToken envFailA (entryString e)) ∧
     (POST envFailA (.arr [.str "A", .str "B"])).tokens.map
         (fun r => r.address) =
       [.str "A", .str "B"].map entryString ∧
     processToken envFailA "A" = failureRecord "A" ∧
     (∀ x, x ≠ "A" → processToken envFailA x = processToken envOkA x)) :=
  ⟨by decide, by decide,
   aggregator_batch_shape_and_isolation envFailA envOkA
     [.str "A", .str "B"] "A" (by decide) (by decide)
     (by
       intro x hx
       simp [envFailA, envOkA, hx])
     (fun _ _ => rfl) rfl⟩

/-- C9: the 24h price change comes from CoinGecko; the yahoo-finance
fallback is consulted only when CoinGecko's value is missing or NaN and the
metadata catalog resolves a tokenized stock with a non-empty ticker; a
fallback failure leaves the field absent; and none of this affects the
batch status or error. -/
theorem price_change_primary_and_fallback
    (env env2 : Env) (a : String) (entries : List ReqEntry) :
    (∀ d q, env.coingecko a = .ret (some d) →
      d.price_change_percentage_24h = some (.val q) →
      (processToken env a).priceChange24h = some q) ∧
    (∀ c, env.coingecko a = .ret c → pcMissingOf c = false →
      env2.coingecko = env.coingecko → env2.tokenMeta = env.tokenMeta →
      processToken env a = processToken env2 a) ∧
    (∀ c, env.coingecko a = .ret c →
      tickerEligible (env.tokenMeta a) = false →
      env2.coingecko = env.coingecko → env2.tokenMeta = env.tokenMeta →
      processToken env a = processToken env2 a) ∧
    (∀ c m tk, a ≠ "" → env.coingecko a = .ret c → pcMissingOf c = true →
      env.tokenMeta a = .ret (some m) → m.isStock = true →
      m.ticker = some tk → tk ≠ "" → env.yahooQuote tk = .throws →
      (processToken env a).priceChange24h = none) ∧
    (invalidRequest (.arr entries) = false →
      (POST env (.arr entries)).status = 200 ∧
      (POST env (.arr entries)).error = none) := by
  refine ⟨?_, ?_, ?_, ?_, ?_⟩
  · intro d q h1 h2
    unfold processToken
    rw [h1]
    simp [priceChangeFinal, pcMissingOf, priceChangeRaw, h2]
  · intro c h1 hm h2cg h2meta
    unfold processToken priceChangeFinal
    rw [h2cg, h2meta, h1]
    simp [hm]
  · intro c h1 hel h2cg h2meta
    have key : priceChangeFinal env a c = priceChangeFinal env2 a c := by
      unfold priceChangeFinal
      rw [h2meta]
      by_cases hcond : (pcMissingOf c && a != "") = true
      · rw [if_pos hcond, if_pos hcond]
        cases ht : env.tokenMeta a with
        | throws => rfl
        | ret mo =>
          cases mo with
          | none => rfl
          | some m =>
            rw [ht] at hel
            unfold tickerEligible at hel
            by_cases hst : m.isStock = true
            · cases htk : m.ticker with
              | none => simp [hst, htk]
              | some tk =>
                have hel2 : (m.isStock &&
                    (match m.ticker with
                      | some t => t != ""
                      | none => false)) = false := hel
                rw [hst, htk] at hel2
                simp only [Bool.true_and] at hel2
                have htk0 : tk = "" := by simpa using hel2
                simp [hst, htk, htk0]
            · simp [hst]
      · rw [if_neg hcond, if_neg hcond]
    unfold processToken
    rw [h2cg, h1]
    simp only [key]
  · intro c m tk ha h1 hm hmt hstock htick htkne hythrow
    unfold processToken
    rw [h1]
    have ha2 : (a != "") = true := by simpa using ha
    have htkne2 : (tk != "") = true := by simpa using htkne
    unfold priceChangeFinal
    rw [hmt]
    simp only [hm, ha2, Bool.and_self, if_true, hstock, htick, htkne2,
      if_pos, hythrow]
    unfold pcMissingOf at hm
    cases hp0 : priceChangeRaw c with
    | none => simp
    | some j =>
      cases j with
      | val x => rw [hp0] at hm; simp at hm
      | nan => simp
  · intro hv
    have hlen : (entries.length == 0) = false := by
      unfold invalidRequest at hv
      cases h : (entries.length == 0) <;> simp_all
    have hall : entries.all validEntry = true := by
      unfold invalidRequest at hv
      cases h : entries.all validEntry <;> simp_all
    exact ⟨by simp [POST, hlen, hall], by simp [POST, hlen, hall]⟩

/-- Witness for C9: CoinGecko's value is used when present; with it missing
and yahoo-finance throwing, the field is absent and the batch still answers
200 with no error. -/
theorem price_change_primary_and_fallback_witness :
    (processToken envPrimary "A").priceChange24h = some 2 ∧
    (processToken envFallbackThrow "A").priceChange24h = none ∧
    ((POST envFallbackThrow (.arr [.str "A"])).status = 200 ∧
     (POST envFallbackThrow (.arr [.str "A"])).error = none) :=
  ⟨(price_change_primary_and_fallback envPrimary envPrimary "A" []).1
     cgGood 2 rfl rfl,
   (price_change_primary_and_fallback envFallbackThrow envFallbackThrow
       "A" []).2.2.2.1
     (some cgMissing) ⟨true, some "NVDA"⟩ "NVDA" (by decide) rfl rfl rfl rfl
     rfl (by decide) rfl,
   (price_change_primary_and_fallback envFallbackThrow envFallbackThrow
       "A" [.str "A"]).2.2.2.2 (by decide)⟩

end VaultoSwap
